import Mathlib

/-
  Shallow embedding of the ESP32 UWB anchor firmware
  (src/anchor/sketch_ppk2_merged_accuracy/sketch_ppk2_merged_accuracy.ino).

  Global mutable state of the sketch is collected in a single structure `St`;
  each C function becomes a Lean function `St → St` (with an explicit `now`
  parameter wherever the source calls `millis()`; within a single handler
  invocation `millis()` is modelled as constant).  Side effects that are
  observable at the boundary (serial output lines, GPIO writes, blocking
  delays) are recorded in an append-only trace `St.out`.  Calls into the
  external radio driver (DW1000 / DW1000Ranging) are out of scope per the
  design document and are not modelled beyond their effect on the sketch's
  own state; the floating-point distance and the raw timestamps that appear
  only inside formatted log lines are abstracted into structured trace
  records.
-/

namespace UWBAnchor

/-- `enum TestMode` (source lines 49-57). -/
inductive TestMode where
  | MODE_NONE
  | MODE_IDLE_TEST
  | MODE_RX_TEST
  | MODE_TX_TEST
  | MODE_RANGING_TEST
  | MODE_SLEEP_CYCLE
  | MODE_AUTO_SEQUENCE
deriving DecidableEq, Repr

/-- `enum AnchorState` (source line 63). -/
inductive AnchorState where
  | STATE_IDLE
  | STATE_ACTIVE
deriving DecidableEq, Repr

/-- `enum SequenceStep` (source lines 76-85). -/
inductive SequenceStep where
  | SEQ_RX_1
  | SEQ_IDLE_1
  | SEQ_TX
  | SEQ_IDLE_2
  | SEQ_RX_2
  | SEQ_IDLE_3
  | SEQ_SLEEP
  | SEQ_COMPLETE
deriving DecidableEq, Repr

/-- The two GPIO marker pins (PPK2_TX_PIN = 25, PPK2_RX_PIN = 26). -/
inductive Pin where
  | p25
  | p26
deriving DecidableEq, Repr

/-- Observable boundary events: GPIO writes, blocking delays and serial
output.  Formatted log lines that carry data relevant to the claims are
structured records (`rangeRecord`, `testComplete`, `startTest`,
`channelConfigured`); all other serial lines are `print` with an abbreviated
text.  The floating-point distance and the six raw device timestamps appear
only inside the `#%d:...` log line and are abstracted away. -/
inductive Action where
  | write (p : Pin) (high : Bool)
  | delayMs (ms : Nat)
  | delayUs (us : Nat)
  | rangeRecord (idx p25 p26 : Int)
  | testComplete (p25 p26 : Int)
  | startTest (target : Int)
  | channelConfigured (ch delay : Nat)
  | print (s : String)
deriving DecidableEq, Repr

/-- A distant device delivered to the `newRange` callback.  The source reads
its `getRange()` (a float) and six timestamps, all of which are only passed
to `Serial.printf`; they are irrelevant to the control state, so the device
is modelled as an opaque token. -/
structure Device where
  shortAddress : Nat
deriving DecidableEq, Repr

/-- The sketch's global mutable state (source lines 42-104), plus the
observable event trace `out`. -/
structure St where
  currentTestMode : TestMode
  usingRangingLayer : Bool
  currentState : AnchorState
  sleepStartTime : Nat
  sleepDuration : Nat
  inDeepSleep : Bool
  lastTxTime : Nat
  txInterval : Nat
  txInProgress : Bool
  currentSequenceStep : SequenceStep
  sequenceStepStartTime : Nat
  autoSequenceActive : Bool
  rangingTestTargetCount : Int
  rangingTestCurrentCount : Int
  rangingTestActive : Bool
  pin25PulseCount : Int
  pin26PulseCount : Int
  rangingSequenceStartTime : Nat
  rangingIdlePeriodActive : Bool
  configOption : Nat
  channel : Nat
  pin25Level : Bool
  pin26Level : Bool
  out : List Action
deriving DecidableEq, Repr

/-- `const unsigned long RANGING_IDLE_DURATION = 1000` (source line 99). -/
def RANGING_IDLE_DURATION : Nat := 1000

/-- `const uint8_t channelMap[] = {0, 1, 2, 3, 4, 5, 7}` (source line 36). -/
def channelMap : List Nat := [0, 1, 2, 3, 4, 5, 7]

/-- `const uint16_t antennaDelays[]` (source line 37), indexed by channel. -/
def antennaDelays : List Nat :=
  [16534, 16525, 16517, 16531, 16383, 16534, 16534, 16401]

/-- Append one observable action to the trace. -/
def emit (a : Action) (s : St) : St :=
  { s with out := s.out ++ [a] }

/-- `digitalWrite` on one of the two marker pins: updates the modelled pin
level and records the write in the trace. -/
def digitalWrite (p : Pin) (high : Bool) (s : St) : St :=
  match p with
  | Pin.p25 => { s with pin25Level := high, out := s.out ++ [Action.write p high] }
  | Pin.p26 => { s with pin26Level := high, out := s.out ++ [Action.write p high] }

/-- `getAntennaDelayForChannel` (source lines 688-690): bounds-checked
lookup with a 16534 fallback. -/
def getAntennaDelayForChannel (ch : Nat) : Nat :=
  if ch ≤ 7 then antennaDelays.getD ch 0 else 16534

/-- `applyChannelConfiguration` (source lines 651-685): recomputes the
channel from `configOption` via the lookup table (fallback channel 5),
fully reinitialises the radio through the ranging library (external calls
not modelled), and leaves the ranging-protocol layer active. -/
def applyChannelConfiguration (s : St) : St :=
  let s := { s with channel := if s.configOption ≤ 6 then channelMap.getD s.configOption 0 else 5 }
  -- SPI restart, DW1000 reset, DW1000Ranging.initCommunication/startAsAnchor,
  -- handler attachment, setChannel/setAntennaDelay/commitConfiguration:
  -- external radio-driver calls with no modelled sketch state.
  let s := { s with usingRangingLayer := true }
  emit (Action.channelConfigured s.channel (getAntennaDelayForChannel s.channel)) s

/-- `initializeDirectMode` (source lines 617-641): switches the radio to
direct register control; a no-op when the ranging layer is not active. -/
def initializeDirectMode (s : St) : St :=
  if s.usingRangingLayer then
    let s := emit (Action.print "MODE: Direct control initialized") s
    -- DW1000 reset/begin/select, power-profiling handler attachment and
    -- reconfiguration: external radio-driver calls.
    { s with usingRangingLayer := false }
  else s

/-- `initializeRangingMode` (source lines 643-649): switches the radio to
the ranging-protocol stack; a no-op when that layer is already active. -/
def initializeRangingMode (s : St) : St :=
  if s.usingRangingLayer then s
  else
    let s := emit (Action.print "MODE: Ranging protocol initialized") s
    let s := applyChannelConfiguration s
    { s with usingRangingLayer := true }

/-- `stopAllTests` (source lines 596-614). -/
def stopAllTests (s : St) : St :=
  let s := { s with
    currentTestMode := TestMode.MODE_NONE
    currentState := AnchorState.STATE_IDLE
    inDeepSleep := false
    txInProgress := false
    rangingTestActive := false
    rangingIdlePeriodActive := false
    autoSequenceActive := false }
  let s := digitalWrite Pin.p25 false s
  let s := digitalWrite Pin.p26 false s
  if s.usingRangingLayer then
    -- DW1000 newReceive/receivePermanently(true)/startReceive: the radio
    -- keeps listening through the ranging layer; no sketch state changes.
    s
  else
    initializeRangingMode s

/-- `stopRangingTest` (source lines 498-522): completes the ranging test,
emits the end-of-test 20 ms dual-pin sync pulses and enters indefinite
idle mode (`MODE_IDLE_TEST`). -/
def stopRangingTest (s : St) : St :=
  let s := { s with
    rangingTestActive := false
    rangingIdlePeriodActive := false
    currentState := AnchorState.STATE_IDLE
    currentTestMode := TestMode.MODE_IDLE_TEST }
  let s := emit (Action.print "STOP_TEST") s
  let s := digitalWrite Pin.p25 true s
  let s := digitalWrite Pin.p26 true s
  let s := emit (Action.delayMs 20) s
  let s := digitalWrite Pin.p25 false s
  let s := digitalWrite Pin.p26 false s
  let s := emit (Action.delayMs 20) s
  let s := initializeDirectMode s
  -- DW1000 idle/clearInterrupts/receivePermanently(false): external calls.
  emit (Action.print "RANGING_TEST: Complete - entered idle mode") s

/-- `handleTimestampAvailable` (source lines 134-141): 50 microsecond pulse
on pin 25 and counter increment, gated on ranging-test activity. -/
def handleTimestampAvailable (s : St) : St :=
  if s.currentTestMode = TestMode.MODE_RANGING_TEST ∧
     s.currentState = AnchorState.STATE_ACTIVE ∧ s.rangingTestActive = true then
    let s := digitalWrite Pin.p25 true s
    let s := emit (Action.delayUs 50) s
    let s := digitalWrite Pin.p25 false s
    { s with pin25PulseCount := s.pin25PulseCount + 1 }
  else s

/-- `newRange` (source lines 143-170): the range-computed callback.  A null
device handle is ignored; otherwise, while the ranging test is active, the
completion count and pin-26 pulse counter are incremented, a 2 ms pulse is
emitted on pin 26, a structured result record is reported, and once the
completion count reaches the target the summary record is reported and
`stopRangingTest` runs. -/
def newRange (device : Option Device) (s : St) : St :=
  match device with
  | none => s
  | some _ =>
    if s.currentTestMode = TestMode.MODE_RANGING_TEST ∧
       s.currentState = AnchorState.STATE_ACTIVE ∧ s.rangingTestActive = true then
      let s := { s with
        pin26PulseCount := s.pin26PulseCount + 1
        rangingTestCurrentCount := s.rangingTestCurrentCount + 1 }
      let s := digitalWrite Pin.p26 true s
      let s := emit (Action.delayUs 2000) s
      let s := digitalWrite Pin.p26 false s
      let s := emit (Action.rangeRecord s.rangingTestCurrentCount s.pin25PulseCount s.pin26PulseCount) s
      if s.rangingTestCurrentCount ≥ s.rangingTestTargetCount then
        let s := emit (Action.testComplete s.pin25PulseCount s.pin26PulseCount) s
        stopRangingTest s
      else s
    else s

/-- `startRangingTest` (source lines 473-496). -/
def startRangingTest (count : Int) (now : Nat) (s : St) : St :=
  let s := emit (Action.print "RANGING_TEST: Starting - idle phase") s
  let s := initializeDirectMode s
  -- DW1000 idle/clearInterrupts/receivePermanently(false): external calls.
  { s with
    rangingTestTargetCount := count
    rangingTestCurrentCount := 0
    pin25PulseCount := 0
    pin26PulseCount := 0
    rangingSequenceStartTime := now
    rangingIdlePeriodActive := true
    rangingTestActive := false
    currentTestMode := TestMode.MODE_RANGING_TEST
    currentState := AnchorState.STATE_IDLE }

/-- `handleRangingTest` (source lines 541-576): the settle-period state
machine.  Once 1000 ms have elapsed since session start it switches to the
ranging layer, emits the 20 ms dual-pin start sync pulses and activates the
test; during the active phase the external `DW1000Ranging.loop()` does all
the work (no sketch state changes). -/
def handleRangingTest (now : Nat) (s : St) : St :=
  if s.rangingIdlePeriodActive then
    if now - s.rangingSequenceStartTime ≥ RANGING_IDLE_DURATION then
      let s := emit (Action.print "RANGING: Active start") s
      let s := initializeRangingMode s
      let s := digitalWrite Pin.p25 true s
      let s := digitalWrite Pin.p26 true s
      let s := emit (Action.delayMs 20) s
      let s := digitalWrite Pin.p25 false s
      let s := digitalWrite Pin.p26 false s
      let s := emit (Action.delayMs 20) s
      let s := emit (Action.startTest s.rangingTestTargetCount) s
      let s := { s with
        rangingIdlePeriodActive := false
        rangingTestActive := true
        currentState := AnchorState.STATE_ACTIVE }
      emit (Action.print "RANGING_TEST: Active - waiting for tag") s
    else s
  else
    -- Active phase: DW1000Ranging.loop() delegates to the external ranging
    -- protocol; callbacks are modelled separately (`newRange`,
    -- `handleTimestampAvailable`).
    s

/-- `startIdleTest` (source lines 292-300). -/
def startIdleTest (s : St) : St :=
  let s := emit (Action.print "IDLE_TEST: Starting - measuring idle power") s
  let s := initializeDirectMode s
  let s := { s with currentTestMode := TestMode.MODE_IDLE_TEST }
  emit (Action.print "IDLE_TEST: Active - minimal power mode") s

/-- `startRxTest` (source lines 302-312). -/
def startRxTest (s : St) : St :=
  let s := emit (Action.print "RX_TEST: Starting - measuring RX power") s
  let s := initializeDirectMode s
  let s := digitalWrite Pin.p26 true s
  let s := { s with currentTestMode := TestMode.MODE_RX_TEST }
  emit (Action.print "RX_TEST: Active - listening continuously") s

/-- `startTxTest` (source lines 314-320). -/
def startTxTest (now : Nat) (s : St) : St :=
  let s := emit (Action.print "TX_TEST: Active") s
  let s := initializeDirectMode s
  { s with lastTxTime := now, currentTestMode := TestMode.MODE_TX_TEST }

/-- `startSleepTest` (source lines 322-335). -/
def startSleepTest (now : Nat) (s : St) : St :=
  let s := emit (Action.print "SLEEP_CYCLE: Starting - entering deep sleep") s
  let s := stopAllTests s
  let s := { s with sleepStartTime := now }
  let s := emit (Action.delayMs 100) s
  -- DW1000.deepSleep(): external call.
  let s := { s with inDeepSleep := true, currentTestMode := TestMode.MODE_SLEEP_CYCLE }
  emit (Action.print "SLEEP_CYCLE: Active - measuring ultra-low power") s

/-- `startAutoSequence` (source lines 337-352). -/
def startAutoSequence (now : Nat) (s : St) : St :=
  let s := emit (Action.print "AUTO: Starting power sequence") s
  let s := { s with
    currentSequenceStep := SequenceStep.SEQ_RX_1
    sequenceStepStartTime := now
    autoSequenceActive := true
    currentTestMode := TestMode.MODE_AUTO_SEQUENCE }
  let s := emit (Action.print "AUTO: Step 1/7 - RX_TEST (2sec)") s
  let s := initializeDirectMode s
  digitalWrite Pin.p26 true s

/-- `handleAutoSequence` (source lines 355-470): one tick of the fixed
seven-step power sequence. -/
def handleAutoSequence (now : Nat) (s : St) : St :=
  if s.autoSequenceActive = false then s
  else
    let elapsed := now - s.sequenceStepStartTime
    match s.currentSequenceStep with
    | SequenceStep.SEQ_RX_1 =>
      if elapsed ≥ 2000 then
        let s := digitalWrite Pin.p26 false s
        let s := emit (Action.print "AUTO: Step 2/7 - IDLE_TEST (4sec)") s
        { s with currentSequenceStep := SequenceStep.SEQ_IDLE_1, sequenceStepStartTime := now }
      else s
    | SequenceStep.SEQ_IDLE_1 =>
      if elapsed ≥ 4000 then
        let s := emit (Action.print "AUTO: Step 3/7 - TX_TEST (3sec, 500ms interval)") s
        let s := { s with txInterval := 500, lastTxTime := now }
        { s with currentSequenceStep := SequenceStep.SEQ_TX, sequenceStepStartTime := now }
      else s
    | SequenceStep.SEQ_TX =>
      -- Every tick of the TX step runs the periodic-transmit logic.
      let s :=
        if now - s.lastTxTime ≥ s.txInterval ∧ s.txInProgress = false then
          let s := digitalWrite Pin.p25 true s
          -- DW1000 newTransmit/setDefaults/setData/startTransmit: external.
          { s with txInProgress := true, lastTxTime := now }
        else s
      -- `if (!txInProgress && millis() - lastTxTime > 10) DW1000.idle()`:
      -- external call only, no sketch state change.
      if elapsed ≥ 3000 then
        let s := emit (Action.print "AUTO: Step 4/7 - IDLE_TEST (2sec)") s
        { s with currentSequenceStep := SequenceStep.SEQ_IDLE_2, sequenceStepStartTime := now }
      else s
    | SequenceStep.SEQ_IDLE_2 =>
      if elapsed ≥ 2000 then
        let s := emit (Action.print "AUTO: Step 5/7 - RX_TEST (4sec)") s
        let s := digitalWrite Pin.p26 true s
        { s with currentSequenceStep := SequenceStep.SEQ_RX_2, sequenceStepStartTime := now }
      else s
    | SequenceStep.SEQ_RX_2 =>
      if elapsed ≥ 4000 then
        let s := digitalWrite Pin.p26 false s
        let s := emit (Action.print "AUTO: Step 6/7 - IDLE_TEST (2sec)") s
        { s with currentSequenceStep := SequenceStep.SEQ_IDLE_3, sequenceStepStartTime := now }
      else s
    | SequenceStep.SEQ_IDLE_3 =>
      if elapsed ≥ 2000 then
        let s := emit (Action.print "AUTO: Step 7/7 - SLEEP_CYCLE (3000ms)") s
        let s := { s with sleepStartTime := now, sleepDuration := 3000 }
        let s := emit (Action.delayMs 100) s
        -- DW1000.deepSleep(): external call.
        let s := { s with inDeepSleep := true }
        { s with currentSequenceStep := SequenceStep.SEQ_SLEEP, sequenceStepStartTime := now }
      else s
    | SequenceStep.SEQ_SLEEP =>
      if s.inDeepSleep then
        if now - s.sleepStartTime ≥ s.sleepDuration then
          let s := emit (Action.print "AUTO: Sleep complete - reinitializing") s
          let s := emit (Action.delayMs 10) s
          let s := applyChannelConfiguration s
          { s with inDeepSleep := false, currentSequenceStep := SequenceStep.SEQ_COMPLETE }
        else s
      else s
    | SequenceStep.SEQ_COMPLETE =>
      let s := emit (Action.print "AUTO: Sequence complete") s
      { s with autoSequenceActive := false, currentTestMode := TestMode.MODE_NONE }

/-- Arduino `String::toInt` on the digits of a decimal literal (wraps
`atol`): an optional leading minus sign followed by the longest digit
prefix; 0 when no digits are present. -/
def strToIntAux : List Char → Int → Int
  | [], acc => acc
  | c :: cs, acc => if c.isDigit then strToIntAux cs (acc * 10 + (c.toNat - 48 : Nat)) else acc

/-- Arduino `String::toInt`, modelled on the character list. -/
def strToInt (str : String) : Int :=
  match str.toList with
  | [] => 0
  | c :: cs =>
    if c = Char.ofNat 45 then -(strToIntAux cs 0) else strToIntAux (c :: cs) 0

/-- Command-line splitting (source lines 266-275): the name is the text up
to the first space; the remainder is parsed as the integer argument
(default 0). -/
def parseLine (cmd : String) : String × Int :=
  match cmd.toList.findIdx? (fun c => c = Char.ofNat 32) with
  | some i =>
    (String.mk (cmd.toList.take i), strToInt (String.mk (cmd.toList.drop (i + 1))))
  | none => (cmd, 0)

/-- `parseCommand` (source lines 264-289): split the line, unconditionally
stop the current test, then dispatch to the named test's start action. -/
def parseCommand (cmd : String) (now : Nat) (s : St) : St :=
  let command := (parseLine cmd).1
  let arg1 := (parseLine cmd).2
  let s := stopAllTests s
  if command = "IDLE_TEST" then startIdleTest s
  else if command = "RX_TEST" then startRxTest s
  else if command = "TX_TEST" then
    startTxTest now { s with txInterval := if arg1 > 0 then arg1.toNat else 50 }
  else if command = "RANGING_TEST" then
    if arg1 > 0 then startRangingTest arg1 now s
    else emit (Action.print "Usage: RANGING_TEST <count>") s
  else if command = "SLEEP_CYCLE" then
    startSleepTest now { s with sleepDuration := if arg1 > 0 then arg1.toNat else 5000 }
  else if command = "auto" then startAutoSequence now s
  else if command = "STOP_TEST" then emit (Action.print "All tests stopped.") s
  else emit (Action.print "Unknown command.") s

/-! Auxiliary definitions used by the verification statements. -/

/-- Number of `TEST_COMPLETE` summary records in a trace. -/
def countTestComplete (l : List Action) : Nat :=
  l.countP fun a => match a with
    | Action.testComplete _ _ => true
    | _ => false

/-- The 20 ms dual-pin synchronization pulse pair as it appears in the
trace: both marker pins driven high together, held for 20 ms, then both
driven low (followed by the second 20 ms settling delay). -/
def syncPulseTrace : List Action :=
  [Action.write Pin.p25 true, Action.write Pin.p26 true, Action.delayMs 20,
   Action.write Pin.p25 false, Action.write Pin.p26 false, Action.delayMs 20]

/-- Deliver `k` consecutive range-completion callbacks from device `d`. -/
def deliverRanges (d : Device) : Nat → St → St
  | 0, s => s
  | k + 1, s => newRange (some d) (deliverRanges d k s)

/-- The ranging session is in its active phase with target `n` and current
completion count `c`. -/
def ActiveAt (s : St) (n c : Int) : Prop :=
  s.currentTestMode = TestMode.MODE_RANGING_TEST ∧
  s.currentState = AnchorState.STATE_ACTIVE ∧
  s.rangingTestActive = true ∧
  s.rangingTestTargetCount = n ∧
  s.rangingTestCurrentCount = c

instance (s : St) (n c : Int) : Decidable (ActiveAt s n c) := by
  unfold ActiveAt; infer_instance

/-- Position of a step in the fixed auto-sequence order. -/
def stepIdx : SequenceStep → Nat
  | SequenceStep.SEQ_RX_1 => 0
  | SequenceStep.SEQ_IDLE_1 => 1
  | SequenceStep.SEQ_TX => 2
  | SequenceStep.SEQ_IDLE_2 => 3
  | SequenceStep.SEQ_RX_2 => 4
  | SequenceStep.SEQ_IDLE_3 => 5
  | SequenceStep.SEQ_SLEEP => 6
  | SequenceStep.SEQ_COMPLETE => 7

/-- Fixed duration of each auto-sequence step in milliseconds, read off the
guards of `handleAutoSequence` (the terminal step has no duration). -/
def stepDuration : SequenceStep → Nat
  | SequenceStep.SEQ_RX_1 => 2000
  | SequenceStep.SEQ_IDLE_1 => 4000
  | SequenceStep.SEQ_TX => 3000
  | SequenceStep.SEQ_IDLE_2 => 2000
  | SequenceStep.SEQ_RX_2 => 4000
  | SequenceStep.SEQ_IDLE_3 => 2000
  | SequenceStep.SEQ_SLEEP => 3000
  | SequenceStep.SEQ_COMPLETE => 0

/-- Consistency invariant of a running auto sequence: while the sequence is
in the sleep step, the deep-sleep bookkeeping agrees with the step clock
(the sleep timer was started at the step boundary with the fixed 3000 ms
duration).  Established by `startAutoSequence`, preserved by every tick. -/
def AutoInv (s : St) : Prop :=
  s.autoSequenceActive = true →
  s.currentSequenceStep = SequenceStep.SEQ_SLEEP →
  (s.inDeepSleep = true ∧ s.sleepStartTime = s.sequenceStepStartTime ∧
   s.sleepDuration = 3000)

instance (s : St) : Decidable (AutoInv s) := by
  unfold AutoInv; infer_instance

/-- A sample state used to instantiate universally quantified theorems:
no test running, ranging layer active, all counters zero, empty trace. -/
def st0 : St :=
  { currentTestMode := TestMode.MODE_NONE
    usingRangingLayer := true
    currentState := AnchorState.STATE_IDLE
    sleepStartTime := 0
    sleepDuration := 0
    inDeepSleep := false
    lastTxTime := 0
    txInterval := 50
    txInProgress := false
    currentSequenceStep := SequenceStep.SEQ_RX_1
    sequenceStepStartTime := 0
    autoSequenceActive := false
    rangingTestTargetCount := 0
    rangingTestCurrentCount := 0
    rangingTestActive := false
    pin25PulseCount := 0
    pin26PulseCount := 0
    rangingSequenceStartTime := 0
    rangingIdlePeriodActive := false
    configOption := 1
    channel := 1
    pin25Level := false
    pin26Level := false
    out := [] }

/-- A sample distant device for instantiating the ranging callbacks. -/
def dev0 : Device := { shortAddress := 1 }

/-- Sample state with the direct operating mode active. -/
def stDirect : St := { st0 with usingRangingLayer := false }

/-- Sample state with stale session counters left over from a completed
session (TestMode is already None). -/
def stStale : St :=
  { st0 with rangingTestCurrentCount := 9, pin25PulseCount := 4, pin26PulseCount := 5 }

/-- Sample state with an active ranging session two completions into a
five-completion target. -/
def stRanging : St :=
  { st0 with
    currentTestMode := TestMode.MODE_RANGING_TEST
    currentState := AnchorState.STATE_ACTIVE
    rangingTestActive := true
    rangingTestTargetCount := 5
    rangingTestCurrentCount := 2
    pin25PulseCount := 2
    pin26PulseCount := 2 }

/-! Helper lemmas shared by the claim theorems. -/

lemma initializeRangingMode_fields (s : St) :
    (initializeRangingMode s).usingRangingLayer = true ∧
    (initializeRangingMode s).currentTestMode = s.currentTestMode ∧
    (initializeRangingMode s).currentState = s.currentState ∧
    (initializeRangingMode s).inDeepSleep = s.inDeepSleep ∧
    (initializeRangingMode s).txInProgress = s.txInProgress ∧
    (initializeRangingMode s).rangingTestActive = s.rangingTestActive ∧
    (initializeRangingMode s).rangingIdlePeriodActive = s.rangingIdlePeriodActive ∧
    (initializeRangingMode s).autoSequenceActive = s.autoSequenceActive ∧
    (initializeRangingMode s).pin25Level = s.pin25Level ∧
    (initializeRangingMode s).pin26Level = s.pin26Level ∧
    (initializeRangingMode s).rangingTestCurrentCount = s.rangingTestCurrentCount ∧
    (initializeRangingMode s).pin25PulseCount = s.pin25PulseCount ∧
    (initializeRangingMode s).pin26PulseCount = s.pin26PulseCount := by
  by_cases h : s.usingRangingLayer <;>
    simp [initializeRangingMode, applyChannelConfiguration, emit, h]

lemma stopAllTests_fields (s : St) :
    (stopAllTests s).currentTestMode = TestMode.MODE_NONE ∧
    (stopAllTests s).currentState = AnchorState.STATE_IDLE ∧
    (stopAllTests s).inDeepSleep = false ∧
    (stopAllTests s).txInProgress = false ∧
    (stopAllTests s).rangingTestActive = false ∧
    (stopAllTests s).rangingIdlePeriodActive = false ∧
    (stopAllTests s).autoSequenceActive = false ∧
    (stopAllTests s).pin25Level = false ∧
    (stopAllTests s).pin26Level = false ∧
    (stopAllTests s).usingRangingLayer = true ∧
    (stopAllTests s).rangingTestCurrentCount = s.rangingTestCurrentCount ∧
    (stopAllTests s).pin25PulseCount = s.pin25PulseCount ∧
    (stopAllTests s).pin26PulseCount = s.pin26PulseCount := by
  by_cases h : s.usingRangingLayer <;>
    simp [stopAllTests, initializeRangingMode, applyChannelConfiguration,
      digitalWrite, emit, h]

lemma countTestComplete_append (l₁ l₂ : List Action) :
    countTestComplete (l₁ ++ l₂) = countTestComplete l₁ + countTestComplete l₂ :=
  List.countP_append _ _ _

lemma stopRangingTest_mode (s : St) :
    (stopRangingTest s).currentTestMode = TestMode.MODE_IDLE_TEST := by
  by_cases h : s.usingRangingLayer <;>
    simp [stopRangingTest, initializeDirectMode, digitalWrite, emit, h]

lemma stopRangingTest_count (s : St) :
    (stopRangingTest s).rangingTestCurrentCount = s.rangingTestCurrentCount := by
  by_cases h : s.usingRangingLayer <;>
    simp [stopRangingTest, initializeDirectMode, digitalWrite, emit, h]

lemma stopRangingTest_countTC (s : St) :
    countTestComplete (stopRangingTest s).out = countTestComplete s.out := by
  by_cases h : s.usingRangingLayer <;>
    simp [stopRangingTest, initializeDirectMode, digitalWrite, emit, h,
      countTestComplete, List.countP_append]

lemma newRange_partial_step (s : St) (d : Device) (n c : Int)
    (h : ActiveAt s n c) (hlt : c + 1 < n) :
    ActiveAt (newRange (some d) s) n (c + 1) ∧
    countTestComplete (newRange (some d) s).out = countTestComplete s.out := by
  obtain ⟨h1, h2, h3, h4, h5⟩ := h
  have hguard : ¬(n ≤ c + 1) := by omega
  constructor
  · refine ⟨?_, ?_, ?_, ?_, ?_⟩ <;>
      simp [newRange, digitalWrite, emit, h1, h2, h3, h4, h5, hguard, ActiveAt]
  · simp [newRange, digitalWrite, emit, h1, h2, h3, h4, h5, hguard,
      countTestComplete, List.countP_append]

lemma newRange_final_step (s : St) (d : Device) (n c : Int)
    (h : ActiveAt s n c) (hge : n ≤ c + 1) :
    (newRange (some d) s).currentTestMode = TestMode.MODE_IDLE_TEST ∧
    (newRange (some d) s).rangingTestCurrentCount = c + 1 ∧
    countTestComplete (newRange (some d) s).out = countTestComplete s.out + 1 := by
  obtain ⟨h1, h2, h3, h4, h5⟩ := h
  refine ⟨?_, ?_, ?_⟩
  · simp [newRange, digitalWrite, emit, h1, h2, h3, h4, h5, hge,
      stopRangingTest_mode]
  · simp [newRange, digitalWrite, emit, h1, h2, h3, h4, h5, hge,
      stopRangingTest_count]
  · simp [newRange, digitalWrite, emit, h1, h2, h3, h4, h5, hge,
      stopRangingTest_countTC]
    rw [countTestComplete_append]
    simp [countTestComplete]

lemma deliverRanges_partial (d : Device) (n : Int) :
    ∀ (k : Nat) (s : St) (c : Int), ActiveAt s n c → c + k < n →
    ActiveAt (deliverRanges d k s) n (c + k) ∧
    countTestComplete (deliverRanges d k s).out = countTestComplete s.out := by
  intro k
  induction k with
  | zero => intro s c h _; exact ⟨by simpa using h, rfl⟩
  | succ m ih =>
    intro s c h hlt
    have hm : c + m < n := by push_cast at hlt ⊢; omega
    obtain ⟨ha, hc⟩ := ih s c h hm
    have hstep : (c + m) + 1 < n := by push_cast at hlt ⊢; omega
    obtain ⟨ha1, hc1⟩ := newRange_partial_step _ d n (c + m) ha hstep
    refine ⟨?_, ?_⟩
    · show ActiveAt (newRange (some d) (deliverRanges d m s)) n (c + (m + 1 : ℕ))
      have : (c + (m : ℤ)) + 1 = c + ((m : ℕ) + 1 : ℕ) := by push_cast; ring
      rwa [this] at ha1
    · show countTestComplete (newRange (some d) (deliverRanges d m s)).out =
        countTestComplete s.out
      rw [hc1, hc]

lemma session_activation (s0 : St) (n : Int) (t0 t1 : Nat)
    (ht : RANGING_IDLE_DURATION ≤ t1 - t0) :
    ActiveAt (handleRangingTest t1 (startRangingTest n t0 s0)) n 0 ∧
    countTestComplete (handleRangingTest t1 (startRangingTest n t0 s0)).out =
      countTestComplete s0.out := by
  have ht' : 1000 ≤ t1 - t0 := ht
  constructor
  · refine ⟨?_, ?_, ?_, ?_, ?_⟩ <;>
      by_cases h : s0.usingRangingLayer <;>
      simp [handleRangingTest, startRangingTest, initializeDirectMode,
        initializeRangingMode, applyChannelConfiguration, digitalWrite, emit,
        RANGING_IDLE_DURATION, ht', h, ActiveAt]
  · by_cases h : s0.usingRangingLayer <;>
      simp [handleRangingTest, startRangingTest, initializeDirectMode,
        initializeRangingMode, applyChannelConfiguration, digitalWrite, emit,
        RANGING_IDLE_DURATION, ht', h, countTestComplete, List.countP_append]

/-! Claim theorems. -/

/-- C1: for every ranging session started with target count n > 0, once
the settle period has elapsed and n completion events have been delivered
by the ranging collaborator, the session has reported the TEST_COMPLETE
summary record exactly once, the completion count equals n, and TestMode
is IdleTest (not None). -/
theorem c1_ranging_termination (s0 : St) (n : Nat) (t0 t1 : Nat) (d : Device)
    (hn : 0 < n) (ht : RANGING_IDLE_DURATION ≤ t1 - t0) :
    (deliverRanges d n (handleRangingTest t1 (startRangingTest (n : Int) t0 s0))).currentTestMode
      = TestMode.MODE_IDLE_TEST ∧
    (deliverRanges d n (handleRangingTest t1 (startRangingTest (n : Int) t0 s0))).currentTestMode
      ≠ TestMode.MODE_NONE ∧
    (deliverRanges d n (handleRangingTest t1 (startRangingTest (n : Int) t0 s0))).rangingTestCurrentCount
      = (n : Int) ∧
    countTestComplete
      (deliverRanges d n (handleRangingTest t1 (startRangingTest (n : Int) t0 s0))).out
      = countTestComplete s0.out + 1 := by
  obtain ⟨m, rfl⟩ : ∃ m, n = m + 1 := ⟨n - 1, (Nat.succ_pred_eq_of_pos hn).symm⟩
  obtain ⟨hact, hcnt⟩ := session_activation s0 ((m + 1 : Nat) : Int) t0 t1 ht
  have hmlt : (0 : Int) + m < ((m + 1 : Nat) : Int) := by push_cast; omega
  obtain ⟨hpart, hpartcnt⟩ :=
    deliverRanges_partial d ((m + 1 : Nat) : Int) m
      (handleRangingTest t1 (startRangingTest ((m + 1 : Nat) : Int) t0 s0)) 0 hact hmlt
  have hge : ((m + 1 : Nat) : Int) ≤ ((0 : Int) + m) + 1 := by push_cast; omega
  obtain ⟨f1, f2, f3⟩ := newRange_final_step _ d ((m + 1 : Nat) : Int) ((0 : Int) + m) hpart hge
  have hdeliver : deliverRanges d (m + 1)
      (handleRangingTest t1 (startRangingTest ((m + 1 : Nat) : Int) t0 s0)) =
      newRange (some d) (deliverRanges d m
        (handleRangingTest t1 (startRangingTest ((m + 1 : Nat) : Int) t0 s0))) := rfl
  rw [hdeliver]
  refine ⟨f1, by rw [f1]; decide, ?_, ?_⟩
  · rw [f2]; push_cast; ring
  · rw [f3, hpartcnt, hcnt]

theorem c1_ranging_termination_witness :
    0 < 2 ∧ RANGING_IDLE_DURATION ≤ 1500 - 200 ∧
    ((deliverRanges dev0 2 (handleRangingTest 1500 (startRangingTest ((2 : Nat) : Int) 200 st0))).currentTestMode
      = TestMode.MODE_IDLE_TEST ∧
     (deliverRanges dev0 2 (handleRangingTest 1500 (startRangingTest ((2 : Nat) : Int) 200 st0))).currentTestMode
      ≠ TestMode.MODE_NONE ∧
     (deliverRanges dev0 2 (handleRangingTest 1500 (startRangingTest ((2 : Nat) : Int) 200 st0))).rangingTestCurrentCount
      = ((2 : Nat) : Int) ∧
     countTestComplete
       (deliverRanges dev0 2 (handleRangingTest 1500 (startRangingTest ((2 : Nat) : Int) 200 st0))).out
      = countTestComplete st0.out + 1) :=
  ⟨by decide, by decide,
   c1_ranging_termination st0 2 200 1500 dev0 (by decide) (by decide)⟩

/-- C5: for every prior state, `startRangingTest` with a positive target
count sets the completion count and both pulse counters to 0, records the
start timestamp, and enters the settle phase with TestMode = RangingTest
and AnchorState = Idle. -/
theorem c5_start_resets_counters (s : St) (n : Int) (t : Nat) (hn : 0 < n) :
    (startRangingTest n t s).rangingTestTargetCount = n ∧
    (startRangingTest n t s).rangingTestCurrentCount = 0 ∧
    (startRangingTest n t s).pin25PulseCount = 0 ∧
    (startRangingTest n t s).pin26PulseCount = 0 ∧
    (startRangingTest n t s).rangingSequenceStartTime = t ∧
    (startRangingTest n t s).rangingIdlePeriodActive = true ∧
    (startRangingTest n t s).rangingTestActive = false ∧
    (startRangingTest n t s).currentTestMode = TestMode.MODE_RANGING_TEST ∧
    (startRangingTest n t s).currentState = AnchorState.STATE_IDLE :=
  ⟨rfl, rfl, rfl, rfl, rfl, rfl, rfl, rfl, rfl⟩

theorem c5_start_resets_counters_witness :
    (0 : Int) < 3 ∧
    ((startRangingTest 3 7 stStale).rangingTestTargetCount = 3 ∧
     (startRangingTest 3 7 stStale).rangingTestCurrentCount = 0 ∧
     (startRangingTest 3 7 stStale).pin25PulseCount = 0 ∧
     (startRangingTest 3 7 stStale).pin26PulseCount = 0 ∧
     (startRangingTest 3 7 stStale).rangingSequenceStartTime = 7 ∧
     (startRangingTest 3 7 stStale).rangingIdlePeriodActive = true ∧
     (startRangingTest 3 7 stStale).rangingTestActive = false ∧
     (startRangingTest 3 7 stStale).currentTestMode = TestMode.MODE_RANGING_TEST ∧
     (startRangingTest 3 7 stStale).currentState = AnchorState.STATE_IDLE) :=
  ⟨by decide, c5_start_resets_counters stStale 3 7 (by decide)⟩

/-- C8: in every state where TestMode is not RangingTest, or AnchorState
is not Active, or the ranging-test-active flag is false, the
timestamp-available callback and the range-computed callback are complete
no-ops: the state (counters, pins, trace) is unchanged. -/
theorem c8_callbacks_noop_outside_active (s : St) (d : Option Device)
    (h : ¬(s.currentTestMode = TestMode.MODE_RANGING_TEST ∧
           s.currentState = AnchorState.STATE_ACTIVE ∧ s.rangingTestActive = true)) :
    handleTimestampAvailable s = s ∧ newRange d s = s := by
  constructor
  · simp [handleTimestampAvailable, h]
  · cases d with
    | none => rfl
    | some dd => simp [newRange, h]

theorem c8_callbacks_noop_outside_active_witness :
    ¬(st0.currentTestMode = TestMode.MODE_RANGING_TEST ∧
      st0.currentState = AnchorState.STATE_ACTIVE ∧ st0.rangingTestActive = true) ∧
    (handleTimestampAvailable st0 = st0 ∧ newRange (some dev0) st0 = st0) :=
  ⟨by decide, c8_callbacks_noop_outside_active st0 (some dev0) (by decide)⟩

/-- C9: switching to direct mode when the ranging layer is not active is a
no-op, and switching to ranging-protocol mode when that layer is already
active is a no-op. -/
theorem c9_mode_switches_idempotent (s : St) :
    (s.usingRangingLayer = false → initializeDirectMode s = s) ∧
    (s.usingRangingLayer = true → initializeRangingMode s = s) := by
  constructor
  · intro h; simp [initializeDirectMode, h]
  · intro h; simp [initializeRangingMode, h]

theorem c9_mode_switches_idempotent_witness :
    initializeDirectMode stDirect = stDirect ∧ initializeRangingMode st0 = st0 :=
  ⟨(c9_mode_switches_idempotent stDirect).1 rfl,
   (c9_mode_switches_idempotent st0).2 rfl⟩

/-- C10: the channel and antenna-delay lookups are total with defined
fallbacks: `getAntennaDelayForChannel` returns `antennaDelays[ch]` for
`ch ≤ 7` (an in-bounds index) and 16534 otherwise, and
`applyChannelConfiguration` sets the channel to `channelMap[configOption]`
for `configOption ≤ 6` (an in-bounds index) and to 5 otherwise. -/
theorem c10_lookup_totality (ch : Nat) (s : St) :
    (ch ≤ 7 → ch < antennaDelays.length ∧
      getAntennaDelayForChannel ch = antennaDelays.getD ch 0) ∧
    (7 < ch → getAntennaDelayForChannel ch = 16534) ∧
    (s.configOption ≤ 6 → s.configOption < channelMap.length) ∧
    (applyChannelConfiguration s).channel =
      (if s.configOption ≤ 6 then channelMap.getD s.configOption 0 else 5) := by
  refine ⟨fun h => ⟨?_, ?_⟩, fun h => ?_, fun h => ?_, ?_⟩
  · simp [antennaDelays]; omega
  · simp [getAntennaDelayForChannel, h]
  · simp [getAntennaDelayForChannel, Nat.not_le.mpr h, Nat.not_le_of_lt h]
  · simp [channelMap]; omega
  · rfl

theorem c10_lookup_totality_witness :
    ((3 ≤ 7 → 3 < antennaDelays.length ∧
       getAntennaDelayForChannel 3 = antennaDelays.getD 3 0) ∧
     (7 < 3 → getAntennaDelayForChannel 3 = 16534) ∧
     (st0.configOption ≤ 6 → st0.configOption < channelMap.length) ∧
     (applyChannelConfiguration st0).channel =
       (if st0.configOption ≤ 6 then channelMap.getD st0.configOption 0 else 5)) ∧
    getAntennaDelayForChannel 9 = 16534 :=
  ⟨c10_lookup_totality 3 st0, (c10_lookup_totality 9 st0).2.1 (by decide)⟩

/-- C2 (counterexample): the claim says the stop-all-tests operation leaves
the operating-mode flag unchanged.  In the state `st0` with the direct
operating mode active (`usingRangingLayer = false`), `stopAllTests` calls
`initializeRangingMode`, which flips the flag to `true`. -/
theorem c2_cex_stop_changes_mode_flag :
    stDirect.usingRangingLayer = false ∧
    (stopAllTests stDirect).usingRangingLayer = true := by
  decide

/-- C2 (amended): `stopAllTests` resets TestMode to None and AnchorState to
Idle, clears the transmit-in-progress, deep-sleep, ranging (both the active
and the settle-period flag) and auto-sequence flags, drives both marker
pins low, and always leaves the ranging-protocol layer active: when it was
already active the radio is set to listen continuously, and when direct
mode was active `initializeRangingMode` runs, so the operating-mode flag
ends `true` in every case (it is *not* unchanged). -/
theorem c2_stop_all_tests_effect (s : St) :
    (stopAllTests s).currentTestMode = TestMode.MODE_NONE ∧
    (stopAllTests s).currentState = AnchorState.STATE_IDLE ∧
    (stopAllTests s).txInProgress = false ∧
    (stopAllTests s).inDeepSleep = false ∧
    (stopAllTests s).rangingTestActive = false ∧
    (stopAllTests s).rangingIdlePeriodActive = false ∧
    (stopAllTests s).autoSequenceActive = false ∧
    (stopAllTests s).pin25Level = false ∧
    (stopAllTests s).pin26Level = false ∧
    (stopAllTests s).usingRangingLayer = true := by
  obtain ⟨h1, h2, h3, h4, h5, h6, h7, h8, h9, h10, -⟩ := stopAllTests_fields s
  exact ⟨h1, h2, h4, h3, h5, h6, h7, h8, h9, h10⟩

/-- C3 (counterexample): the claim says stopping a running ranging session
via a preempting command has the same effect as natural completion (which
ends in TestMode = IdleTest) and always emits the 20 ms dual-pin pulse
pair.  In the active-session state `stRanging`, the preempting STOP_TEST
command leaves TestMode = None (not IdleTest), and the entire trace it
appends contains no 20 ms delay at all, hence no 20 ms pulse pair. -/
theorem c3_cex_preemption_no_pulse :
    stRanging.currentTestMode = TestMode.MODE_RANGING_TEST ∧
    stRanging.rangingTestActive = true ∧
    stRanging.rangingTestCurrentCount < stRanging.rangingTestTargetCount ∧
    (parseCommand "STOP_TEST" 0 stRanging).currentTestMode = TestMode.MODE_NONE ∧
    (parseCommand "STOP_TEST" 0 stRanging).currentTestMode ≠ TestMode.MODE_IDLE_TEST ∧
    Action.delayMs 20 ∉ (parseCommand "STOP_TEST" 0 stRanging).out := by
  decide

/-- C3 (amended): the ranging-test stop routine `stopRangingTest` — the one
invoked on natural completion — may be called before the target count is
reached and then has the identical effect (TestMode = IdleTest, AnchorState
= Idle, flags cleared) and always emits the 20 ms dual-pin pulse pair at
the stop boundary.  Preemption by a new command, however, runs
`stopAllTests` instead, which emits no pulse pair and leaves TestMode =
None (see the counterexample). -/
theorem c3_stop_ranging_like_completion (s : St) :
    (stopRangingTest s).currentTestMode = TestMode.MODE_IDLE_TEST ∧
    (stopRangingTest s).currentState = AnchorState.STATE_IDLE ∧
    (stopRangingTest s).rangingTestActive = false ∧
    (stopRangingTest s).rangingIdlePeriodActive = false ∧
    ∃ u v, (stopRangingTest s).out = u ++ syncPulseTrace ++ v := by
  by_cases h : s.usingRangingLayer
  · refine ⟨?_, ?_, ?_, ?_,
      s.out ++ [Action.print "STOP_TEST"],
      [Action.print "MODE: Direct control initialized",
       Action.print "RANGING_TEST: Complete - entered idle mode"], ?_⟩ <;>
    simp [stopRangingTest, initializeDirectMode, digitalWrite, emit,
      syncPulseTrace, h]
  · refine ⟨?_, ?_, ?_, ?_,
      s.out ++ [Action.print "STOP_TEST"],
      [Action.print "RANGING_TEST: Complete - entered idle mode"], ?_⟩ <;>
    simp [stopRangingTest, initializeDirectMode, digitalWrite, emit,
      syncPulseTrace, h]

/-- C6 (counterexample): the claim says that in every state with no test
active, stop leaves all counters at 0.  The state below (TestMode = None,
counters 1 — reachable by completing a one-cycle ranging session and then
issuing STOP_TEST) keeps its nonzero counters across `stopAllTests`. -/
theorem c6_cex_stop_keeps_stale_counters :
    stStale.currentTestMode = TestMode.MODE_NONE ∧
    (stopAllTests stStale).rangingTestCurrentCount = 9 ∧
    ((9 : Int) ≠ 0) :=
  ⟨rfl, rfl, by decide⟩

/-- C6 (amended): invoking stop when no test is active leaves TestMode =
None and leaves the completion count and both pulse counters *unchanged*
(in particular, still 0 whenever they were 0; the code never zeroes them
on stop). -/
theorem c6_idempotent_stop (s : St) (h : s.currentTestMode = TestMode.MODE_NONE) :
    (stopAllTests s).currentTestMode = TestMode.MODE_NONE ∧
    (stopAllTests s).rangingTestCurrentCount = s.rangingTestCurrentCount ∧
    (stopAllTests s).pin25PulseCount = s.pin25PulseCount ∧
    (stopAllTests s).pin26PulseCount = s.pin26PulseCount := by
  obtain ⟨h1, -, -, -, -, -, -, -, -, -, h11, h12, h13⟩ := stopAllTests_fields s
  exact ⟨h1, h11, h12, h13⟩

/-- C4: processing a command line whose name is not one of the recognized
commands produces the diagnostic "Unknown command." and starts no new
test; since `stopAllTests` has already run, the net effect is that any
previously running test is cancelled and TestMode ends at None. -/
theorem c4_unknown_command_cancels (s : St) (cmd : String) (now : Nat)
    (h : (parseLine cmd).1 ∉
      (["IDLE_TEST", "RX_TEST", "TX_TEST", "RANGING_TEST",
        "SLEEP_CYCLE", "auto", "STOP_TEST"] : List String)) :
    (parseCommand cmd now s).currentTestMode = TestMode.MODE_NONE ∧
    (parseCommand cmd now s).rangingTestActive = false ∧
    (parseCommand cmd now s).rangingIdlePeriodActive = false ∧
    (parseCommand cmd now s).autoSequenceActive = false ∧
    (parseCommand cmd now s).inDeepSleep = false ∧
    (parseCommand cmd now s).txInProgress = false ∧
    (parseCommand cmd now s).out =
      (stopAllTests s).out ++ [Action.print "Unknown command."] := by
  simp only [List.mem_cons, List.not_mem_nil, or_false, not_or] at h
  obtain ⟨h1, h2, h3, h4, h5, h6, h7⟩ := h
  obtain ⟨f1, -, -, -, f5, f6, f7, -, -, -, -⟩ := stopAllTests_fields s
  have hcmd : parseCommand cmd now s =
      emit (Action.print "Unknown command.") (stopAllTests s) := by
    simp [parseCommand, h1, h2, h3, h4, h5, h6, h7]
  rw [hcmd]
  refine ⟨f1, f5, f6, f7, ?_, ?_, rfl⟩
  · obtain ⟨-, -, d3, -⟩ := stopAllTests_fields s; exact d3
  · obtain ⟨-, -, -, d4, -⟩ := stopAllTests_fields s; exact d4

theorem c4_unknown_command_cancels_witness :
    (parseLine "FOO 3").1 ∉
      (["IDLE_TEST", "RX_TEST", "TX_TEST", "RANGING_TEST",
        "SLEEP_CYCLE", "auto", "STOP_TEST"] : List String) ∧
    ((parseCommand "FOO 3" 0 stRanging).currentTestMode = TestMode.MODE_NONE ∧
     (parseCommand "FOO 3" 0 stRanging).rangingTestActive = false ∧
     (parseCommand "FOO 3" 0 stRanging).rangingIdlePeriodActive = false ∧
     (parseCommand "FOO 3" 0 stRanging).autoSequenceActive = false ∧
     (parseCommand "FOO 3" 0 stRanging).inDeepSleep = false ∧
     (parseCommand "FOO 3" 0 stRanging).txInProgress = false ∧
     (parseCommand "FOO 3" 0 stRanging).out =
       (stopAllTests stRanging).out ++ [Action.print "Unknown command."]) :=
  ⟨by decide, c4_unknown_command_cancels stRanging "FOO 3" 0 (by decide)⟩

/-- C7: for every run of the auto sequence, the current SequenceStep is one
of the enumerated values (guaranteed by the `SequenceStep` type) and per
tick advances only forward through the fixed order — it either stays put or
moves to the immediately next step — with a transition firing only once the
elapsed time since the step began reaches that step's fixed duration
(2000, 4000, 3000, 2000, 4000, 2000, 3000 ms; the sleep-step guard agrees
with the step clock through the `AutoInv` consistency invariant, which
`startAutoSequence` establishes and every tick preserves); reaching the
terminal step clears the active flag and returns TestMode to None. -/
theorem c7_auto_sequence_invariants :
    (∀ (s : St) (now : Nat), AutoInv (startAutoSequence now s)) ∧
    (∀ (s : St) (now : Nat), AutoInv s →
      AutoInv (handleAutoSequence now s) ∧
      (stepIdx (handleAutoSequence now s).currentSequenceStep =
         stepIdx s.currentSequenceStep ∨
       stepIdx (handleAutoSequence now s).currentSequenceStep =
         stepIdx s.currentSequenceStep + 1) ∧
      (stepIdx (handleAutoSequence now s).currentSequenceStep =
         stepIdx s.currentSequenceStep + 1 →
       stepDuration s.currentSequenceStep ≤ now - s.sequenceStepStartTime) ∧
      (s.currentSequenceStep = SequenceStep.SEQ_COMPLETE →
       s.autoSequenceActive = true →
       (handleAutoSequence now s).autoSequenceActive = false ∧
       (handleAutoSequence now s).currentTestMode = TestMode.MODE_NONE)) := by
  constructor
  · intro s now h1 h2
    by_cases h : s.usingRangingLayer <;>
      simp [startAutoSequence, initializeDirectMode, digitalWrite, emit, h] at h2
  · intro s now hInv
    cases hA : s.autoSequenceActive with
    | false =>
      have hred : handleAutoSequence now s = s := by
        simp [handleAutoSequence, hA]
      rw [hred]
      exact ⟨hInv, Or.inl rfl, fun hh => absurd hh (by omega),
        fun _ hact => absurd hact (by decide)⟩
    | true =>
      cases hstep : s.currentSequenceStep with
      | SEQ_RX_1 =>
        by_cases hg : 2000 ≤ now - s.sequenceStepStartTime
        · refine ⟨?_, Or.inr ?_, fun _ => ?_, fun hc _ => absurd hc (by decide)⟩
          · intro _ hsl
            simp [handleAutoSequence, hA, hstep, hg, digitalWrite, emit] at hsl
          · simp [handleAutoSequence, hA, hstep, hg, digitalWrite, emit, stepIdx]
          · simpa [stepDuration] using hg
        · have hred : handleAutoSequence now s = s := by
            simp [handleAutoSequence, hA, hstep, hg]
          rw [hred]
          exact ⟨hInv, Or.inl (by rw [hstep]),
            fun hh => by rw [hstep] at hh; simp [stepIdx] at hh,
            fun hc _ => absurd hc (by decide)⟩
      | SEQ_IDLE_1 =>
        by_cases hg : 4000 ≤ now - s.sequenceStepStartTime
        · refine ⟨?_, Or.inr ?_, fun _ => ?_, fun hc _ => absurd hc (by decide)⟩
          · intro _ hsl
            simp [handleAutoSequence, hA, hstep, hg, digitalWrite, emit] at hsl
          · simp [handleAutoSequence, hA, hstep, hg, digitalWrite, emit, stepIdx]
          · simpa [stepDuration] using hg
        · have hred : handleAutoSequence now s = s := by
            simp [handleAutoSequence, hA, hstep, hg]
          rw [hred]
          exact ⟨hInv, Or.inl (by rw [hstep]),
            fun hh => by rw [hstep] at hh; simp [stepIdx] at hh,
            fun hc _ => absurd hc (by decide)⟩
      | SEQ_TX =>
        by_cases htx : now - s.lastTxTime ≥ s.txInterval ∧ s.txInProgress = false
        · by_cases hg : 3000 ≤ now - s.sequenceStepStartTime
          · refine ⟨?_, Or.inr ?_, fun _ => ?_, fun hc _ => absurd hc (by decide)⟩
            · intro _ hsl
              simp [handleAutoSequence, hA, hstep, htx, hg, digitalWrite, emit] at hsl
            · simp [handleAutoSequence, hA, hstep, htx, hg, digitalWrite, emit, stepIdx]
            · simpa [stepDuration] using hg
          · refine ⟨?_, Or.inl ?_, fun hh => ?_, fun hc _ => absurd hc (by decide)⟩
            · intro _ hsl
              simp [handleAutoSequence, hA, hstep, htx, hg, digitalWrite, emit] at hsl
            · simp [handleAutoSequence, hA, hstep, htx, hg, digitalWrite, emit, stepIdx]
            · rw [show stepIdx (handleAutoSequence now s).currentSequenceStep =
                  stepIdx SequenceStep.SEQ_TX by
                simp [handleAutoSequence, hA, hstep, htx, hg, digitalWrite, emit, stepIdx]] at hh
              simp [stepIdx] at hh
        · by_cases hg : 3000 ≤ now - s.sequenceStepStartTime
          · refine ⟨?_, Or.inr ?_, fun _ => ?_, fun hc _ => absurd hc (by decide)⟩
            · intro _ hsl
              simp [handleAutoSequence, hA, hstep, htx, hg, digitalWrite, emit] at hsl
            · simp [handleAutoSequence, hA, hstep, htx, hg, digitalWrite, emit, stepIdx]
            · simpa [stepDuration] using hg
          · have hred : handleAutoSequence now s = s := by
              simp [handleAutoSequence, hA, hstep, htx, hg]
            rw [hred]
            exact ⟨hInv, Or.inl (by rw [hstep]),
              fun hh => by rw [hstep] at hh; simp [stepIdx] at hh,
              fun hc _ => absurd hc (by decide)⟩
      | SEQ_IDLE_2 =>
        by_cases hg : 2000 ≤ now - s.sequenceStepStartTime
        · refine ⟨?_, Or.inr ?_, fun _ => ?_, fun hc _ => absurd hc (by decide)⟩
          · intro _ hsl
            simp [handleAutoSequence, hA, hstep, hg, digitalWrite, emit] at hsl
          · simp [handleAutoSequence, hA, hstep, hg, digitalWrite, emit, stepIdx]
          · simpa [stepDuration] using hg
        · have hred : handleAutoSequence now s = s := by
            simp [handleAutoSequence, hA, hstep, hg]
          rw [hred]
          exact ⟨hInv, Or.inl (by rw [hstep]),
            fun hh => by rw [hstep] at hh; simp [stepIdx] at hh,
            fun hc _ => absurd hc (by decide)⟩
      | SEQ_RX_2 =>
        by_cases hg : 4000 ≤ now - s.sequenceStepStartTime
        · refine ⟨?_, Or.inr ?_, fun _ => ?_, fun hc _ => absurd hc (by decide)⟩
          · intro _ hsl
            simp [handleAutoSequence, hA, hstep, hg, digitalWrite, emit] at hsl
          · simp [handleAutoSequence, hA, hstep, hg, digitalWrite, emit, stepIdx]
          · simpa [stepDuration] using hg
        · have hred : handleAutoSequence now s = s := by
            simp [handleAutoSequence, hA, hstep, hg]
          rw [hred]
          exact ⟨hInv, Or.inl (by rw [hstep]),
            fun hh => by rw [hstep] at hh; simp [stepIdx] at hh,
            fun hc _ => absurd hc (by decide)⟩
      | SEQ_IDLE_3 =>
        by_cases hg : 2000 ≤ now - s.sequenceStepStartTime
        · refine ⟨?_, Or.inr ?_, fun _ => ?_, fun hc _ => absurd hc (by decide)⟩
          · intro _ _
            refine ⟨?_, ?_, ?_⟩ <;>
              simp [handleAutoSequence, hA, hstep, hg, digitalWrite, emit]
          · simp [handleAutoSequence, hA, hstep, hg, digitalWrite, emit, stepIdx]
          · simpa [stepDuration] using hg
        · have hred : handleAutoSequence now s = s := by
            simp [handleAutoSequence, hA, hstep, hg]
          rw [hred]
          exact ⟨hInv, Or.inl (by rw [hstep]),
            fun hh => by rw [hstep] at hh; simp [stepIdx] at hh,
            fun hc _ => absurd hc (by decide)⟩
      | SEQ_SLEEP =>
        obtain ⟨hd, hss, hdur⟩ := hInv hA hstep
        by_cases hg : now - s.sleepStartTime ≥ s.sleepDuration
        · refine ⟨?_, Or.inr ?_, fun _ => ?_, fun hc _ => absurd hc (by decide)⟩
          · intro _ hsl
            simp [handleAutoSequence, hA, hstep, hd, hg,
              applyChannelConfiguration, digitalWrite, emit] at hsl
          · simp [handleAutoSequence, hA, hstep, hd, hg,
              applyChannelConfiguration, digitalWrite, emit, stepIdx]
          · rw [hss, hdur] at hg
            simpa [stepDuration] using hg
        · have hred : handleAutoSequence now s = s := by
            simp [handleAutoSequence, hA, hstep, hd, hg]
          rw [hred]
          exact ⟨hInv, Or.inl (by rw [hstep]),
            fun hh => by rw [hstep] at hh; simp [stepIdx] at hh,
            fun hc _ => absurd hc (by decide)⟩
      | SEQ_COMPLETE =>
        refine ⟨?_, Or.inl ?_, fun hh => ?_, fun _ _ => ⟨?_, ?_⟩⟩
        · intro ha _
          simp [handleAutoSequence, hA, hstep, emit] at ha
        · simp [handleAutoSequence, hA, hstep, emit, stepIdx]
        · rw [show stepIdx (handleAutoSequence now s).currentSequenceStep =
              stepIdx SequenceStep.SEQ_COMPLETE by
            simp [handleAutoSequence, hA, hstep, emit, stepIdx]] at hh
          simp [stepIdx] at hh
        · simp [handleAutoSequence, hA, hstep, emit]
        · simp [handleAutoSequence, hA, hstep, emit]

theorem c7_auto_sequence_invariants_witness :
    AutoInv (startAutoSequence 5 st0) ∧
    AutoInv st0 ∧
    (AutoInv (handleAutoSequence 0 st0) ∧
     (stepIdx (handleAutoSequence 0 st0).currentSequenceStep =
        stepIdx st0.currentSequenceStep ∨
      stepIdx (handleAutoSequence 0 st0).currentSequenceStep =
        stepIdx st0.currentSequenceStep + 1) ∧
     (stepIdx (handleAutoSequence 0 st0).currentSequenceStep =
        stepIdx st0.currentSequenceStep + 1 →
      stepDuration st0.currentSequenceStep ≤ 0 - st0.sequenceStepStartTime) ∧
     (st0.currentSequenceStep = SequenceStep.SEQ_COMPLETE →
      st0.autoSequenceActive = true →
      (handleAutoSequence 0 st0).autoSequenceActive = false ∧
      (handleAutoSequence 0 st0).currentTestMode = TestMode.MODE_NONE)) :=
  ⟨c7_auto_sequence_invariants.1 st0 5, by decide,
   c7_auto_sequence_invariants.2 st0 0 (by decide)⟩

theorem c6_idempotent_stop_witness :
    st0.currentTestMode = TestMode.MODE_NONE ∧
    ((stopAllTests st0).currentTestMode = TestMode.MODE_NONE ∧
     (stopAllTests st0).rangingTestCurrentCount = st0.rangingTestCurrentCount ∧
     (stopAllTests st0).pin25PulseCount = st0.pin25PulseCount ∧
     (stopAllTests st0).pin26PulseCount = st0.pin26PulseCount) :=
  ⟨rfl, c6_idempotent_stop st0 rfl⟩

end UWBAnchor
